import Mathlib

/-!
Verification of the RecruSearch encryption / storage / eligibility core.

The TypeScript sources are shallowly embedded:
* `tweetnacl`'s `box` / `box.open` (public-key authenticated encryption) is
  modelled symbolically as an ideal authenticated-encryption scheme: a
  ciphertext records the message, the nonce and the two Diffie-Hellman
  endpoints, and opening succeeds exactly when nonce and both key endpoints
  match.  `JSON.stringify` / `JSON.parse` and `TextEncoder` / `TextDecoder`
  are idealised as the identity on the serialized payload text.
* Randomness (`randomBytes`, `box.keyPair`, `Date.now()`, `Math.random()`)
  is made explicit: each call receives the draws it makes as a `FreshDraws`
  argument.
* The in-process `Map` storages become association lists; `process.env`
  becomes an explicit `Env` record; the IPFS network calls become explicit
  per-attempt oracles `Nat → Except String _`.
* Thrown `Error`s become `Except String` errors carrying the exact message
  the source builds; `setTimeout` back-off waits are logged as a list of
  millisecond delays returned next to the result.
-/

/-- A curve25519 secret key, symbolically a natural number. -/
structure SecretKey where
  key : Nat
deriving DecidableEq, Repr

/-- A curve25519 public key, symbolically a natural number. -/
structure PublicKey where
  key : Nat
deriving DecidableEq, Repr

/-- Public key derived from a secret key (injective, symbolic). -/
def pubOf (sk : SecretKey) : PublicKey := ⟨sk.key⟩

/-- Symbolic output of `nacl.box`: an authenticated ciphertext binding the
message, the nonce, the sender's public key and the recipient's public key. -/
structure BoxCiphertext where
  message : String
  nonce : Nat
  senderPub : PublicKey
  recipientPub : PublicKey
deriving DecidableEq, Repr

/-- `nacl.box(message, nonce, recipientPublicKey, senderSecretKey)`. -/
def box (message : String) (nonce : Nat) (recipientPub : PublicKey)
    (senderSecret : SecretKey) : BoxCiphertext :=
  ⟨message, nonce, pubOf senderSecret, recipientPub⟩

/-- `nacl.box.open(ciphertext, nonce, senderPublicKey, recipientSecretKey)`:
returns the plaintext exactly when nonce and both key endpoints match,
`none` (the source's `null`, leading to `throw 'Decryption failed'`)
otherwise. -/
def boxOpen (c : BoxCiphertext) (nonce : Nat) (senderPub : PublicKey)
    (recipientSecret : SecretKey) : Option String :=
  if c.nonce = nonce ∧ c.senderPub = senderPub ∧ c.recipientPub = pubOf recipientSecret
  then some c.message else none

/-- The envelope metadata object both encryption managers build:
`{version, ephemeralPublicKey, nonce, encryptedData}` (base64 idealised). -/
structure Metadata where
  version : String
  ephemeralPublicKey : PublicKey
  nonce : Nat
  encryptedData : BoxCiphertext
deriving DecidableEq, Repr

/-- `Map.set`: JavaScript map update, modelled as prepending (lookup finds
the most recent binding first). -/
def mapSet {α : Type} (m : List (String × α)) (k : String) (v : α) :
    List (String × α) :=
  (k, v) :: m

/-- `Map.get`: first binding for the key, if any. -/
def mapGet {α : Type} (m : List (String × α)) (k : String) : Option α :=
  (m.find? (fun kv => kv.1 == k)).map (fun kv => kv.2)

/-- The random draws one call to an encrypt-and-store routine makes:
the nonce from `randomBytes`, the ephemeral key pair from `box.keyPair()`,
and the `Date.now()`/`Math.random()` material of the generated mock CID. -/
structure FreshDraws where
  nonce : Nat
  ephemeralSecret : SecretKey
  cidSuffix : String
deriving DecidableEq, Repr

/-- Result record of `encryptAndStore`: `{encrypted, nonce, cid}`. -/
structure SealResult where
  encrypted : BoxCiphertext
  nonce : Nat
  cid : String
deriving DecidableEq, Repr

namespace EncryptionMock

/-- The module-level `mockIPFSStorage` map of `encryptionMock.ts`
(values are the JSON-serialized metadata envelopes, idealised as the
`Metadata` record itself). -/
abbrev MockStorage := List (String × Metadata)

/-- `EncryptionManager.encryptAndStore` of `encryptionMock.ts`: encrypt with
a fresh nonce and ephemeral key pair, build the metadata envelope, store it
under a freshly generated `QmMock…` CID, return `{encrypted, nonce, cid}`
and the updated storage. -/
def encryptAndStore (storage : MockStorage) (r : FreshDraws) (data : String)
    (researcherPublicKey : PublicKey) : SealResult × MockStorage :=
  let nonce := r.nonce
  let ephemeralSecret := r.ephemeralSecret
  let encryptedMessage := box data nonce researcherPublicKey ephemeralSecret
  let metadata : Metadata := ⟨"1.0", pubOf ephemeralSecret, nonce, encryptedMessage⟩
  let cid := "QmMock" ++ r.cidSuffix
  (⟨encryptedMessage, nonce, cid⟩, mapSet storage cid metadata)

/-- `DecryptionManager.fetchAndDecrypt` of `encryptionMock.ts`: look the CID
up in the mock storage, decode the envelope, `box.open` with the recipient's
secret key; `null` plaintext throws `'Decryption failed'`. -/
def fetchAndDecrypt (storage : MockStorage) (cid : String)
    (researcherPrivateKey : SecretKey) : Except String String :=
  match mapGet storage cid with
  | none => .error "Data not found in mock IPFS"
  | some data =>
    match boxOpen data.encryptedData data.nonce data.ephemeralPublicKey
        researcherPrivateKey with
    | none => .error "Decryption failed"
    | some m => .ok m

end EncryptionMock

/-- The `IPFSConfig` record of `ipfs-config.ts` (the TS `provider` union is
modelled as a plain string because the constructor's `as`-cast performs no
runtime check). -/
structure IPFSConfig where
  provider : String
  apiKey : Option String
  apiSecret : Option String
  endpoint : Option String
  gateway : Option String
  retries : Option Nat
  timeout : Option Nat
deriving DecidableEq, Repr

/-- The `process.env` variables `ipfs-config.ts` reads. -/
structure Env where
  IPFS_PROVIDER : Option String
  IPFS_API_KEY : Option String
  IPFS_API_SECRET : Option String
  IPFS_ENDPOINT : Option String
  IPFS_GATEWAY : Option String
  IPFS_RETRIES : Option String
  IPFS_TIMEOUT : Option String
deriving Repr

/-- JavaScript `a || b` on an optional string (`undefined` and `""` are
falsy). -/
def jsOrString (v : Option String) (dflt : String) : String :=
  match v with
  | none => dflt
  | some s => if s = "" then dflt else s

/-- JavaScript truthiness of an optional string. -/
def jsTruthy (v : Option String) : Bool :=
  match v with
  | none => false
  | some s => s != ""

/-- JavaScript `parseInt` restricted to the shapes the configuration uses:
a non-empty all-digit string parses to its decimal value, anything else is
`NaN` (`none`). -/
def jsParseInt (s : String) : Option Nat :=
  if s.data ≠ [] ∧ s.data.all Char.isDigit
  then some (s.data.foldl (fun n c => n * 10 + (c.toNat - 48)) 0)
  else none

namespace IPFSConfigManager

/-- The `IPFSConfigManager` constructor: copies the environment variables
into the config record with defaults.  Note it performs no validation of
the provider value — the `as` cast is compile-time only — and it cannot
fail. -/
def mkConfig (env : Env) : IPFSConfig :=
  { provider := jsOrString env.IPFS_PROVIDER "custom"
    apiKey := env.IPFS_API_KEY
    apiSecret := env.IPFS_API_SECRET
    endpoint := some (jsOrString env.IPFS_ENDPOINT "http://localhost:5001")
    gateway := some (jsOrString env.IPFS_GATEWAY "https://gateway.pinata.cloud")
    retries := jsParseInt (jsOrString env.IPFS_RETRIES "3")
    timeout := jsParseInt (jsOrString env.IPFS_TIMEOUT "30000") }

/-- The provider values the TS union type `'pinata' | 'infura' | 'custom'`
recognizes. -/
def validProvider (s : String) : Bool :=
  s == "pinata" || s == "infura" || s == "custom"

/-- Where `uploadMetadata` dispatches an upload. -/
inductive UploadRoute where
  | pinata
  | infura
  | mockUpload
deriving DecidableEq, Repr

/-- The dispatch decision of `IPFSConfigManager.uploadMetadata`:
pinata / infura only with a truthy API key, everything else falls through
to the mock development upload. -/
def uploadMetadataRoute (c : IPFSConfig) : UploadRoute :=
  if c.provider == "pinata" && jsTruthy c.apiKey then .pinata
  else if c.provider == "infura" && jsTruthy c.apiKey then .infura
  else .mockUpload

end IPFSConfigManager

/-- The environment with no IPFS variables set: the default configuration
(`provider = "custom"`, no API key). -/
def envEmpty : Env := ⟨none, none, none, none, none, none, none⟩

/-- The configuration the managers build by default. -/
def cfgDefault : IPFSConfig := IPFSConfigManager.mkConfig envEmpty

/-- `config.provider === 'custom' && !config.apiKey`: the managers' test for
taking the in-process mock path. -/
def isMockPath (c : IPFSConfig) : Bool :=
  c.provider == "custom" && !(jsTruthy c.apiKey)

/-- `config.retries || 3`: the retry bound actually used by the loops
(`0`/`NaN` are falsy and fall back to 3). -/
def retriesOf (c : IPFSConfig) : Nat :=
  match c.retries with
  | none => 3
  | some 0 => 3
  | some n => n

/-- The message of the error thrown after the retry budget is exhausted:
`` `${label} after ${r} attempts: ${lastError?.message}` `` (a null
`lastError` renders as `"undefined"`). -/
def failMsg (label : String) (r : Nat) (last : Option String) : String :=
  label ++ (" after " ++ (toString r ++ (" attempts: " ++ last.getD "undefined")))

/-- One retry loop of `encryption.ts`, fuel-indexed:
`for (let attempt = 1; attempt <= retries; attempt++) { try … catch {
lastError = e; if (attempt < retries) await sleep(2^attempt * 1000) } }`
followed by `throw`.  `op attempt` is the outcome of the `try` body at that
attempt; the second component is the list of back-off delays (ms) actually
awaited, in order. -/
def retryStep (op : Nat → Except String σ) (r : Nat) (label : String) :
    Nat → Nat → Option String → Except String σ × List Nat
  | 0, _, last => (.error (failMsg label r last), [])
  | fuel + 1, attempt, _ =>
    match op attempt with
    | .ok a => (.ok a, [])
    | .error e =>
      let rest := retryStep op r label fuel (attempt + 1) (some e)
      if attempt < r then (rest.1, 2 ^ attempt * 1000 :: rest.2) else rest

/-- The retry loop entered at attempt 1 with `lastError = null`. -/
def retryLoop (op : Nat → Except String σ) (r : Nat) (label : String) :
    Except String σ × List Nat :=
  retryStep op r label r 1 none

namespace Encryption

/-- The module-level `mockStorage` map of `encryption.ts` (it stores the
**original un-encrypted data**, not the envelope). -/
abbrev TsStorage := List (String × String)

/-- `EncryptionManager.encryptAndStore` of `encryption.ts`.  Always
encrypts; under the default mock configuration it stores the **original
payload** under a fresh `mock-…` CID with no network call; otherwise it
retries `ipfs.add(JSON.stringify(metadata))` with exponential back-off.
`ipfsAdd` is the per-attempt network oracle, receiving the metadata and the
attempt number and returning the CID path or an error. -/
def encryptAndStore (c : IPFSConfig) (storage : TsStorage) (r : FreshDraws)
    (data : String) (researcherPublicKey : PublicKey)
    (ipfsAdd : Metadata → Nat → Except String String) :
    Except String SealResult × TsStorage × List Nat :=
  let nonce := r.nonce
  let ephemeralSecret := r.ephemeralSecret
  let encryptedMessage := box data nonce researcherPublicKey ephemeralSecret
  let metadata : Metadata := ⟨"1.0", pubOf ephemeralSecret, nonce, encryptedMessage⟩
  if isMockPath c then
    let mockCid := "mock-" ++ r.cidSuffix
    (.ok ⟨encryptedMessage, nonce, mockCid⟩, mapSet storage mockCid data, [])
  else
    match retryLoop (ipfsAdd metadata) (retriesOf c) "Failed to store data on IPFS" with
    | (.ok path, ds) => (.ok ⟨encryptedMessage, nonce, path⟩, storage, ds)
    | (.error m, ds) => (.error m, storage, ds)

/-- `EncryptionManager.storeDocument` of `encryption.ts`: mock CID under the
mock configuration, otherwise the same retry loop around `ipfs.add`. -/
def storeDocument (c : IPFSConfig) (r : FreshDraws)
    (ipfsAdd : Nat → Except String String) : Except String String × List Nat :=
  if isMockPath c then (.ok ("mock-doc-" ++ r.cidSuffix), [])
  else retryLoop ipfsAdd (retriesOf c) "Failed to store document on IPFS"

/-- The body of one `try` block of `DecryptionManager.fetchAndDecrypt`'s
production loop: fetch + parse the envelope, then `box.open`; a `null`
plaintext throws `'Decryption failed'` **inside** the `try`, so it is
caught by the surrounding retry loop like any network error. -/
def fetchAttempt (ipfsCat : Nat → Except String Metadata)
    (researcherPrivateKey : SecretKey) (attempt : Nat) : Except String String :=
  match ipfsCat attempt with
  | .error e => .error e
  | .ok data =>
    match boxOpen data.encryptedData data.nonce data.ephemeralPublicKey
        researcherPrivateKey with
    | none => .error "Decryption failed"
    | some m => .ok m

/-- `DecryptionManager.fetchAndDecrypt` of `encryption.ts`: under the
default mock configuration it looks the CID up in the mock storage and
tests the result for JS truthiness (`if (originalData)`), so it returns
the stored original data when that value is truthy (**ignoring the
private key entirely**) and throws `'Mock data not found for CID: …'`
when the value is absent or falsy (in this String-valued model, the empty
string); otherwise it runs the fetch-and-decrypt attempt under the retry
loop. -/
def fetchAndDecrypt (c : IPFSConfig) (storage : TsStorage) (cid : String)
    (researcherPrivateKey : SecretKey)
    (ipfsCat : Nat → Except String Metadata) : Except String String × List Nat :=
  if isMockPath c then
    match mapGet storage cid with
    | some originalData =>
      if originalData != "" then (.ok originalData, [])
      else (.error ("Mock data not found for CID: " ++ cid), [])
    | none => (.error ("Mock data not found for CID: " ++ cid), [])
  else
    retryLoop (fetchAttempt ipfsCat researcherPrivateKey) (retriesOf c)
      "Failed to fetch and decrypt data"

/-- `DecryptionManager.fetchDocument` of `encryption.ts`: fixed mock
content under the mock configuration, otherwise the retry loop around
`ipfs.cat`. -/
def fetchDocument (c : IPFSConfig)
    (ipfsCat : Nat → Except String String) : Except String String × List Nat :=
  if isMockPath c then (.ok "mock-document-content", [])
  else retryLoop ipfsCat (retriesOf c) "Failed to fetch document"

end Encryption

/-- A survey payload (`SurveyData` of `dataSubmissionService.ts`); response
and metadata records are modelled as string-to-string association lists. -/
structure SurveyData where
  participantId : String
  studyId : Int
  surveyResponses : List (String × String)
  timestamp : Int
  metadata : Option (List (String × String))
deriving DecidableEq, Repr

/-- `JSON.stringify` of a flat string record, insertion order. -/
def jsonPairs : List (String × String) → String
  | [] => ""
  | [(k, v)] => "\"" ++ k ++ "\":\"" ++ v ++ "\""
  | (k, v) :: kv :: rest => "\"" ++ k ++ "\":\"" ++ v ++ "\"," ++ jsonPairs (kv :: rest)

/-- Braces around a serialized record. -/
def jsonObj (ps : List (String × String)) : String := "\x7b" ++ jsonPairs ps ++ "\x7d"

/-- `JSON.stringify` of a `SurveyData` value (key insertion order; the
optional `metadata` key is dropped when `undefined`, as `JSON.stringify`
does). -/
def jsonOfSurvey (d : SurveyData) : String :=
  "\x7b\"participantId\":\"" ++ d.participantId ++ "\",\"studyId\":"
    ++ toString d.studyId
    ++ ",\"surveyResponses\":" ++ jsonObj d.surveyResponses
    ++ ",\"timestamp\":" ++ toString d.timestamp
    ++ (match d.metadata with
        | none => ""
        | some m => ",\"metadata\":" ++ jsonObj m)
    ++ "\x7d"

/-- The byte string of a `tweetnacl` box ciphertext: a 16-byte
authenticator followed by one byte per plaintext character (xsalsa20 is
length-preserving); the authenticator bytes are a symbolic function of
nonce and both key endpoints. -/
def cipherBytes (b : BoxCiphertext) : List Nat :=
  List.replicate 16 ((b.nonce + b.senderPub.key + b.recipientPub.key) % 256)
    ++ b.message.data.map Char.toNat

/-- The `EncryptedSubmission` record returned by
`DataSubmissionService.encryptSurveyData`. -/
structure EncryptedSubmission where
  encryptedDataHash : List Nat
  ipfsCid : String
  originalData : SurveyData
deriving DecidableEq, Repr

namespace DataSubmissionService

/-- `DataSubmissionService.validateSurveyData`: throws on falsy
`participantId` / `studyId` / `timestamp` (empty string and `0` are
falsy), else returns `true`.  (A `null` responses object is not
representable in the typed model.) -/
def validateSurveyData (d : SurveyData) : Except String Bool :=
  if d.participantId = "" then .error "Invalid participant ID"
  else if d.studyId = 0 then .error "Invalid study ID"
  else if d.timestamp = 0 then .error "Invalid timestamp"
  else .ok true

/-- `DataSubmissionService.encryptSurveyData`: encrypt-and-store the
serialized survey, then take `Array.from(encrypted.slice(0, 32))` — the
first 32 bytes of the ciphertext — as the `encryptedDataHash` recorded on
the ledger. -/
def encryptSurveyData (c : IPFSConfig) (storage : Encryption.TsStorage)
    (r : FreshDraws) (d : SurveyData) (researcherPublicKey : PublicKey)
    (ipfsAdd : Metadata → Nat → Except String String) :
    Except String EncryptedSubmission × Encryption.TsStorage × List Nat :=
  match Encryption.encryptAndStore c storage r (jsonOfSurvey d)
      researcherPublicKey ipfsAdd with
  | (.ok res, st, ds) =>
    (.ok ⟨(cipherBytes res.encrypted).take 32, res.cid, d⟩, st, ds)
  | (.error m, st, ds) => (.error ("Encryption failed: " ++ m), st, ds)

/-- `DataSubmissionService.decryptSurveyData`: delegate to
`fetchAndDecrypt`, re-wrapping any error as
`` `Decryption failed: ${message}` ``. -/
def decryptSurveyData (c : IPFSConfig) (storage : Encryption.TsStorage)
    (cid : String) (researcherPrivateKey : SecretKey)
    (ipfsCat : Nat → Except String Metadata) :
    Except String String × List Nat :=
  match Encryption.fetchAndDecrypt c storage cid researcherPrivateKey ipfsCat with
  | (.ok v, ds) => (.ok v, ds)
  | (.error m, ds) => (.error ("Decryption failed: " ++ m), ds)

end DataSubmissionService

/-- Modelled from the spec: the Eligibility Rule Engine
(`evaluate(rules, attrs)`) lives in the Rust on-chain program, which is not
among the provided sources (only its TypeScript tests and helpers are);
the rule evaluation below follows spec §3/§4.1 — numeric range checks
first, then categorical exact matches in lexical field order, then the
exclusion-set check, then the required-capability subset check, reporting
the first violated rule.  A participant's declared attributes. -/
structure AttributeRecord where
  age : Nat
  gender : String
  location : String
  conditions : List String
  capabilities : List String
deriving DecidableEq, Repr

/-- Modelled from the spec: a campaign's eligibility policy (spec §3
`RuleSet`; the concrete numeric/categorical fields are those of the
repository's `EligibilityInfo` — `min_age`, `max_age`, `gender`,
`location` — plus the spec's exclusion and required-capability sets).
Every field unset means "no restriction". -/
structure RuleSet where
  min_age : Option Nat
  max_age : Option Nat
  gender : Option String
  location : Option String
  excluded_conditions : Option (List String)
  required_capabilities : Option (List String)
deriving DecidableEq, Repr

/-- Modelled from the spec: the violated-rule discriminant of
`EligibilityDecision` (spec §3). -/
inductive ViolatedRule where
  | none
  | ageBelowMin
  | ageAboveMax
  | categoryMismatch (field : String)
  | excludedConditionPresent (tag : String)
  | missingRequiredCapability (tag : String)
deriving DecidableEq, Repr

/-- Modelled from the spec: `EligibilityDecision` (spec §3); `admits` is
the spec's boolean admission flag. -/
structure EligibilityDecision where
  admits : Bool
  violated_rule : ViolatedRule
deriving DecidableEq, Repr

/-- Modelled from the spec: `evaluate(rules, attrs)` (spec §4.1) — pure,
total, fixed evaluation order, unset fields are "rule not applicable",
numeric bounds inclusive on both ends. -/
def evaluate (rules : RuleSet) (attrs : AttributeRecord) : EligibilityDecision :=
  if rules.min_age.any (fun m => decide (attrs.age < m))
  then ⟨false, .ageBelowMin⟩
  else if rules.max_age.any (fun m => decide (m < attrs.age))
  then ⟨false, .ageAboveMax⟩
  else if rules.gender.any (fun g => g != attrs.gender)
  then ⟨false, .categoryMismatch "gender"⟩
  else if rules.location.any (fun l => l != attrs.location)
  then ⟨false, .categoryMismatch "location"⟩
  else
    match (rules.excluded_conditions.getD []).find?
        (fun t => attrs.conditions.contains t) with
    | some t => ⟨false, .excludedConditionPresent t⟩
    | Option.none =>
      match (rules.required_capabilities.getD []).find?
          (fun t => !attrs.capabilities.contains t) with
      | some t => ⟨false, .missingRequiredCapability t⟩
      | Option.none => ⟨true, .none⟩

/-- The all-unset `RuleSet`. -/
def emptyRuleSet : RuleSet := ⟨none, none, none, none, none, none⟩

/-- An environment selecting a production provider with an API key. -/
def envPinata : Env :=
  ⟨some "pinata", some "key", none, none, none, none, none⟩

/-- A production configuration (provider `pinata`, API key set): the
managers take the real IPFS path. -/
def cfgProd : IPFSConfig := IPFSConfigManager.mkConfig envPinata

/-- An environment selecting an unrecognized storage provider. -/
def envBogus : Env :=
  ⟨some "bogus", none, none, none, none, none, none⟩

/-- The retry bound used by the loops is always positive
(`config.retries || 3` is 3 when `retries` is 0 or `NaN`). -/
theorem retriesOf_pos (c : IPFSConfig) : 0 < retriesOf c := by
  unfold retriesOf
  rcases c.retries with _ | (_ | n) <;> simp

/-- The retry loop consults the per-attempt operation only on attempts
`attempt, …, attempt + fuel - 1`. -/
theorem retryStep_congr {σ : Type} (op op2 : Nat → Except String σ)
    (r : Nat) (label : String) :
    ∀ (fuel attempt : Nat) (last : Option String),
      (∀ i, attempt ≤ i → i < attempt + fuel → op i = op2 i) →
      retryStep op r label fuel attempt last
        = retryStep op2 r label fuel attempt last := by
  intro fuel
  induction fuel with
  | zero => intro attempt last _; rfl
  | succ n ih =>
    intro attempt last h
    have hat : op attempt = op2 attempt := h attempt (Nat.le_refl _) (by omega)
    simp only [retryStep, hat]
    cases h2 : op2 attempt with
    | ok a => rfl
    | error e =>
      have hr := ih (attempt + 1) (some e) (fun i h1 h2 => h i (by omega) (by omega))
      simp only [hr]

/-- If every attempt in the window fails, the loop returns the wrapped
failure message built from the last attempt's error, after sleeping
`2 ^ attempt * 1000` ms after each failed attempt except the `r`-th. -/
theorem retryStep_allFail {σ : Type} (op : Nat → Except String σ)
    (r : Nat) (label : String) (e : Nat → String) :
    ∀ (fuel attempt : Nat) (last : Option String),
      0 < fuel →
      (∀ i, attempt ≤ i → i < attempt + fuel → op i = .error (e i)) →
      retryStep op r label fuel attempt last =
        (.error (failMsg label r (some (e (attempt + fuel - 1)))),
         ((List.range' attempt fuel).filter (fun i => decide (i < r))).map
           (fun i => 2 ^ i * 1000)) := by
  intro fuel
  induction fuel with
  | zero => intro attempt last h; omega
  | succ n ih =>
    intro attempt last _ h
    have hat : op attempt = .error (e attempt) := h attempt (Nat.le_refl _) (by omega)
    simp only [retryStep, hat]
    cases n with
    | zero =>
      simp only [retryStep, List.range'_succ]
      by_cases hlt : attempt < r <;>
        simp [hlt, List.range'_succ]
    | succ m =>
      have hr := ih (attempt + 1) (some (e attempt)) (Nat.succ_pos m)
        (fun i h1 h2 => h i (by omega) (by omega))
      simp only [hr]
      have harith : attempt + 1 + (m + 1) - 1 = attempt + (m + 1 + 1) - 1 := by omega
      by_cases hlt : attempt < r <;>
        simp [hlt, List.range'_succ
          , harith]

/-- If the loop returns an error, every attempt in the window failed. -/
theorem retryStep_error_allFail {σ : Type} (op : Nat → Except String σ)
    (r : Nat) (label : String) :
    ∀ (fuel attempt : Nat) (last : Option String) (m : String) (ds : List Nat),
      retryStep op r label fuel attempt last = (.error m, ds) →
      ∀ i, attempt ≤ i → i < attempt + fuel → ∃ msg, op i = .error msg := by
  intro fuel
  induction fuel with
  | zero => intro attempt last m ds _ i h1 h2; omega
  | succ n ih =>
    intro attempt last m ds hres i h1 h2
    rcases hop : op attempt with ev | a
    · rcases Nat.eq_or_lt_of_le h1 with heq | hlt2
      · exact ⟨ev, heq ▸ hop⟩
      · simp only [retryStep, hop] at hres
        rcases hrest : retryStep op r label n (attempt + 1) (some ev)
          with ⟨res1, ds1⟩
        rw [hrest] at hres
        have hfst : res1 = .error m := by
          by_cases hlt : attempt < r
          · rw [if_pos hlt] at hres
            exact congrArg Prod.fst hres
          · rw [if_neg hlt] at hres
            exact congrArg Prod.fst hres
        exact ih (attempt + 1) (some ev) m ds1
          (by rw [hrest, hfst]) i hlt2 (by omega)
    · simp only [retryStep, hop] at hres
      exact absurd (congrArg Prod.fst hres) (by simp)

/-- Strings with equal character lists are equal. -/
theorem stringDataInj {s t : String} (h : s.data = t.data) : s = t := by
  cases s; cases t; exact congrArg String.mk h

/-- `String.append` is injective on the right. -/
theorem stringAppendRightInj (s : String) {a b : String}
    (h : s ++ a = s ++ b) : a = b := by
  apply stringDataInj
  have hd : s.data ++ a.data = s.data ++ b.data := by
    have := congrArg String.data h
    simpa [String.data_append] using this
  exact List.append_cancel_left hd

/-- The first character of an appended string is the first character of
its (nonempty) left part. -/
theorem firstCharAppend (s t : String) (c : Char) (cs : List Char)
    (h : s.data = c :: cs) : (s ++ t).data.head? = some c := by
  rw [String.data_append, h]; rfl

/-- Strings with different first characters are different. -/
theorem neOfFirstChar {s t : String} (h : s.data.head? ≠ t.data.head?) :
    s ≠ t := fun e => h (by rw [e])

/-- C1: Round-trip law — sealing a payload for `pubOf sk` with
`EncryptionManager.encryptAndStore` and opening the returned CID with the
matching secret key `sk` via `DecryptionManager.fetchAndDecrypt` reproduces
the exact original payload. -/
theorem seal_open_roundtrip (storage : EncryptionMock.MockStorage)
    (r : FreshDraws) (data : String) (sk : SecretKey) :
    EncryptionMock.fetchAndDecrypt
      (EncryptionMock.encryptAndStore storage r data (pubOf sk)).2
      (EncryptionMock.encryptAndStore storage r data (pubOf sk)).1.cid
      sk = .ok data := by
  simp [EncryptionMock.fetchAndDecrypt, EncryptionMock.encryptAndStore,
    mapGet, mapSet, box, boxOpen]

/-- C9: Empty-rule admission — evaluating the all-unset `RuleSet` (every
numeric bound, categorical match, exclusion set and required-capability
field absent) admits every `AttributeRecord` with no violated rule. -/
theorem empty_ruleset_admits_all (attrs : AttributeRecord) :
    evaluate emptyRuleSet attrs = ⟨true, ViolatedRule.none⟩ := rfl

/-- C10 (counterexample): at a concrete input under the default
configuration, the empty payload IS stored in the mock storage under the
returned CID, yet `fetchAndDecrypt` does not return that stored plaintext:
the JS truthiness check `if (originalData)` sends the stored falsy value
to the `Mock data not found for CID: …` throw. -/
theorem mock_path_empty_payload_counterexample :
    mapGet (Encryption.encryptAndStore cfgDefault [] ⟨7, ⟨5⟩, "x"⟩ ""
        (pubOf ⟨1⟩) (fun _ _ => .error "unused")).2.1 "mock-x" = some ""
  ∧ Encryption.fetchAndDecrypt cfgDefault
      (Encryption.encryptAndStore cfgDefault [] ⟨7, ⟨5⟩, "x"⟩ ""
        (pubOf ⟨1⟩) (fun _ _ => .error "unused")).2.1
      "mock-x" ⟨2⟩ (fun _ => .error "unused")
      = (.error "Mock data not found for CID: mock-x", []) := ⟨rfl, rfl⟩

/-- C10 (amended): Under the default configuration (provider `custom`, no
API key), `encryptAndStore` stores the original un-encrypted payload in
the in-process mock storage under the returned CID; `fetchAndDecrypt`
never uses its private-key argument on this path, so its result is
identical for every key; and for every non-empty (JS-truthy) payload it
returns the stored plaintext (a stored empty payload is reported as
`Mock data not found` by the truthiness check). -/
theorem default_config_plaintext_key_independent
    (storage : Encryption.TsStorage) (r : FreshDraws) (data : String)
    (pk : PublicKey) (ipfsAdd : Metadata → Nat → Except String String)
    (ipfsCat : Nat → Except String Metadata) :
    Encryption.encryptAndStore cfgDefault storage r data pk ipfsAdd
      = (.ok ⟨box data r.nonce pk r.ephemeralSecret, r.nonce, "mock-" ++ r.cidSuffix⟩,
         mapSet storage ("mock-" ++ r.cidSuffix) data, [])
  ∧ (data ≠ "" →
      ∀ k : SecretKey,
        Encryption.fetchAndDecrypt cfgDefault
          (mapSet storage ("mock-" ++ r.cidSuffix) data)
          ("mock-" ++ r.cidSuffix) k ipfsCat = (.ok data, []))
  ∧ ∀ k1 k2 : SecretKey,
      Encryption.fetchAndDecrypt cfgDefault
        (mapSet storage ("mock-" ++ r.cidSuffix) data)
        ("mock-" ++ r.cidSuffix) k1 ipfsCat
      = Encryption.fetchAndDecrypt cfgDefault
          (mapSet storage ("mock-" ++ r.cidSuffix) data)
          ("mock-" ++ r.cidSuffix) k2 ipfsCat := by
  refine ⟨rfl, ?_, ?_⟩
  · intro hd k
    simp [Encryption.fetchAndDecrypt, isMockPath, cfgDefault,
      IPFSConfigManager.mkConfig, envEmpty, jsOrString, jsTruthy,
      mapGet, mapSet, hd]
  · intro k1 k2
    rfl

/-- Witness for the amended C10 at a concrete non-empty payload. -/
theorem default_config_plaintext_key_independent_witness :
    Encryption.fetchAndDecrypt cfgDefault
      (mapSet [] ("mock-" ++ "x") "payload") ("mock-" ++ "x") ⟨2⟩
      (fun _ => .error "unused") = (.ok "payload", []) :=
  (default_config_plaintext_key_independent [] ⟨7, ⟨5⟩, "x"⟩ "payload"
    (pubOf ⟨1⟩) (fun _ _ => .error "unused")
    (fun _ => .error "unused")).2.1 (by decide) ⟨2⟩

/-- C2 (code bug witness): at a concrete input under the default
configuration, decrypting with a key different from the recipient's
succeeds and returns the stored original payload — the repository's own
test `should fail decryption with wrong private key` expects a
`Decryption failed` rejection here. -/
theorem wrong_key_mock_path_returns_data :
    (⟨2⟩ : SecretKey) ≠ ⟨1⟩
  ∧ DataSubmissionService.decryptSurveyData cfgDefault
      (Encryption.encryptAndStore cfgDefault [] ⟨7, ⟨5⟩, "x"⟩ "payload"
        (pubOf ⟨1⟩) (fun _ _ => .error "unused")).2.1
      "mock-x" ⟨2⟩ (fun _ => .error "unused")
      = (.ok "payload", []) := by
  exact ⟨by decide, rfl⟩

/-- C5: Non-determinism law — every call to `encryptAndStore` uses the
freshly drawn nonce and ephemeral key pair in the stored envelope and
derives the returned CID from the fresh `Date.now()`/`Math.random()` draw,
so two calls whose draws differ yield different content identifiers. -/
theorem seal_fresh_randomness_distinct_cids
    (s1 s2 : EncryptionMock.MockStorage) (r1 r2 : FreshDraws)
    (data : String) (pk : PublicKey) :
    (EncryptionMock.encryptAndStore s1 r1 data pk).1.cid = "QmMock" ++ r1.cidSuffix
  ∧ mapGet (EncryptionMock.encryptAndStore s1 r1 data pk).2
      ("QmMock" ++ r1.cidSuffix)
      = some ⟨"1.0", pubOf r1.ephemeralSecret, r1.nonce,
             box data r1.nonce pk r1.ephemeralSecret⟩
  ∧ (r1.cidSuffix ≠ r2.cidSuffix →
      (EncryptionMock.encryptAndStore s1 r1 data pk).1.cid
        ≠ (EncryptionMock.encryptAndStore s2 r2 data pk).1.cid) := by
  refine ⟨rfl, ?_, ?_⟩
  · simp [EncryptionMock.encryptAndStore, mapGet, mapSet]
  · intro h heq
    exact h (stringAppendRightInj "QmMock" heq)

/-- Witness for C5 at concrete draws differing in the CID material. -/
theorem seal_fresh_randomness_distinct_cids_witness :
    (EncryptionMock.encryptAndStore [] ⟨1, ⟨3⟩, "a"⟩ "d" (pubOf ⟨9⟩)).1.cid
      ≠ (EncryptionMock.encryptAndStore [] ⟨1, ⟨3⟩, "b"⟩ "d" (pubOf ⟨9⟩)).1.cid :=
  (seal_fresh_randomness_distinct_cids [] [] ⟨1, ⟨3⟩, "a"⟩ ⟨1, ⟨3⟩, "b"⟩
    "d" (pubOf ⟨9⟩)).2.2 (by decide)

/-- C6: Bounded retry with exponential backoff — the retry loop shared by
`encryptAndStore`, `storeDocument` and `fetchDocument` consults the
network call only on attempts `1 … R`; when every attempt fails it sleeps
`2 ^ attempt * 1000` ms after each failed attempt before the `R`-th and
only then throws the wrapped storage-failure error; it returns an error
only when every one of the `R` attempts failed; the three storage
operations run exactly this loop (with bound `config.retries || 3`) on
their non-mock path. -/
theorem retry_bounded_exponential_backoff {σ : Type}
    (op op2 : Nat → Except String σ) (r : Nat) (label : String)
    (e : Nat → String) (c : IPFSConfig) (rr : FreshDraws)
    (storage : Encryption.TsStorage) (data : String) (pk : PublicKey)
    (doc cat : Nat → Except String String)
    (add : Metadata → Nat → Except String String) :
    ((∀ i, 1 ≤ i → i ≤ r → op i = op2 i) →
      retryLoop op r label = retryLoop op2 r label)
  ∧ (0 < r → (∀ i, 1 ≤ i → i ≤ r → op i = .error (e i)) →
      retryLoop op r label =
        (.error (failMsg label r (some (e r))),
         ((List.range' 1 r).filter (fun i => decide (i < r))).map
           (fun i => 2 ^ i * 1000)))
  ∧ (∀ m ds, retryLoop op r label = (.error m, ds) →
      ∀ i, 1 ≤ i → i ≤ r → ∃ msg, op i = .error msg)
  ∧ (isMockPath c = false →
      Encryption.storeDocument c rr doc
        = retryLoop doc (retriesOf c) "Failed to store document on IPFS")
  ∧ (isMockPath c = false →
      Encryption.fetchDocument c cat
        = retryLoop cat (retriesOf c) "Failed to fetch document")
  ∧ (isMockPath c = false →
      (∀ md i, 1 ≤ i → i ≤ retriesOf c → add md i = .error (e i)) →
      Encryption.encryptAndStore c storage rr data pk add =
        (.error (failMsg "Failed to store data on IPFS" (retriesOf c)
                   (some (e (retriesOf c)))),
         storage,
         ((List.range' 1 (retriesOf c)).filter
             (fun i => decide (i < retriesOf c))).map (fun i => 2 ^ i * 1000))) := by
  refine ⟨?_, ?_, ?_, ?_, ?_, ?_⟩
  · intro h
    exact retryStep_congr op op2 r label r 1 none
      (fun i h1 h2 => h i h1 (by omega))
  · intro hr h
    unfold retryLoop
    rw [retryStep_allFail op r label e r 1 none hr
      (fun i h1 h2 => h i h1 (by omega))]
    have harith : 1 + r - 1 = r := by omega
    rw [harith]
  · intro m ds h i h1 h2
    exact retryStep_error_allFail op r label r 1 none m ds h i h1 (by omega)
  · intro hm
    simp [Encryption.storeDocument, hm]
  · intro hm
    simp [Encryption.fetchDocument, hm]
  · intro hm h
    simp only [Encryption.encryptAndStore, hm, Bool.false_eq_true, if_false]
    unfold retryLoop
    rw [retryStep_allFail _ (retriesOf c) _ e (retriesOf c) 1 none
      (retriesOf_pos c) (fun i h1 h2 => h _ i h1 (by omega))]
    have harith : 1 + retriesOf c - 1 = retriesOf c := by omega
    rw [harith]

/-- Witness for C6: with a network that is down on every attempt and the
default bound of 3, the loop backs off 2000 ms then 4000 ms and fails with
the wrapped message; and `fetchDocument` on a production configuration is
exactly this loop. -/
theorem retry_bounded_exponential_backoff_witness :
    retryLoop (fun _ => (Except.error "net down" : Except String String)) 3 "L"
      = (.error (failMsg "L" 3 (some "net down")),
         ((List.range' 1 3).filter (fun i => decide (i < 3))).map
           (fun i => 2 ^ i * 1000))
  ∧ Encryption.fetchDocument cfgProd (fun _ => .error "net down")
      = retryLoop (fun _ => .error "net down") (retriesOf cfgProd)
          "Failed to fetch document" := by
  constructor
  · exact (retry_bounded_exponential_backoff
      (fun _ => (Except.error "net down" : Except String String))
      (fun _ => .error "net down") 3 "L" (fun _ => "net down") cfgProd
      ⟨0, ⟨0⟩, ""⟩ [] "" (pubOf ⟨0⟩) (fun _ => .error "net down")
      (fun _ => .error "net down") (fun _ _ => .error "net down")).2.1
      (by decide) (fun i h1 h2 => rfl)
  · exact (retry_bounded_exponential_backoff
      (fun _ => (Except.error "net down" : Except String String))
      (fun _ => .error "net down") 3 "L" (fun _ => "net down") cfgProd
      ⟨0, ⟨0⟩, ""⟩ [] "" (pubOf ⟨0⟩) (fun _ => .error "net down")
      (fun _ => .error "net down") (fun _ _ => .error "net down")).2.2.2.2.1
      rfl

/-- C3 (counterexample): at a concrete input on the production path, a
wrong-key decryption failure is retried — the operation sleeps 2000 ms and
4000 ms between attempts and surfaces `'Decryption failed'` only wrapped
in the third-attempt exhaustion message, not immediately on the first
attempt. -/
theorem decryption_failure_retried_counterexample :
    Encryption.fetchAndDecrypt cfgProd [] "QmX" ⟨2⟩
        (fun _ => .ok ⟨"1.0", pubOf ⟨5⟩, 7, box "payload" 7 (pubOf ⟨1⟩) ⟨5⟩⟩)
      = (.error
           "Failed to fetch and decrypt data after 3 attempts: Decryption failed",
         [2000, 4000])
  ∧ ([2000, 4000] : List Nat) ≠ [] := ⟨rfl, by decide⟩

/-- C3 (amended): in `fetchAndDecrypt`'s production path a decryption
failure (wrong key or corrupted envelope) is caught by the retry loop like
a transient error: it is retried with exponential backoff and surfaced
only after the retry budget as the wrapped
`Failed to fetch and decrypt data after R attempts: Decryption failed`
message. -/
theorem decryption_failure_retried_and_wrapped
    (c : IPFSConfig) (storage : Encryption.TsStorage) (cid : String)
    (sk : SecretKey) (ipfsCat : Nat → Except String Metadata) (md : Metadata)
    (hm : isMockPath c = false)
    (hcat : ∀ i, 1 ≤ i → i ≤ retriesOf c → ipfsCat i = .ok md)
    (hopen : boxOpen md.encryptedData md.nonce md.ephemeralPublicKey sk = none) :
    Encryption.fetchAndDecrypt c storage cid sk ipfsCat =
      (.error (failMsg "Failed to fetch and decrypt data" (retriesOf c)
                 (some "Decryption failed")),
       ((List.range' 1 (retriesOf c)).filter
           (fun i => decide (i < retriesOf c))).map (fun i => 2 ^ i * 1000)) := by
  have hattempt : ∀ i, 1 ≤ i → i < 1 + retriesOf c →
      Encryption.fetchAttempt ipfsCat sk i = .error "Decryption failed" := by
    intro i h1 h2
    simp [Encryption.fetchAttempt, hcat i h1 (by omega), hopen]
  simp only [Encryption.fetchAndDecrypt, hm, Bool.false_eq_true, if_false]
  unfold retryLoop
  rw [retryStep_allFail _ (retriesOf c) _ (fun _ => "Decryption failed")
    (retriesOf c) 1 none (retriesOf_pos c) hattempt]

/-- Witness for the amended C3 at a concrete production configuration,
envelope and wrong key. -/
theorem decryption_failure_retried_and_wrapped_witness :
    Encryption.fetchAndDecrypt cfgProd [] "QmY" ⟨2⟩
        (fun _ => .ok ⟨"1.0", pubOf ⟨5⟩, 7, box "p" 7 (pubOf ⟨1⟩) ⟨5⟩⟩)
      = (.error (failMsg "Failed to fetch and decrypt data" (retriesOf cfgProd)
                   (some "Decryption failed")),
         ((List.range' 1 (retriesOf cfgProd)).filter
             (fun i => decide (i < retriesOf cfgProd))).map
           (fun i => 2 ^ i * 1000)) :=
  decryption_failure_retried_and_wrapped cfgProd [] "QmY" ⟨2⟩
    (fun _ => .ok ⟨"1.0", pubOf ⟨5⟩, 7, box "p" 7 (pubOf ⟨1⟩) ⟨5⟩⟩)
    ⟨"1.0", pubOf ⟨5⟩, 7, box "p" 7 (pubOf ⟨1⟩) ⟨5⟩⟩
    rfl (fun i h1 h2 => rfl) (by decide)

/-- The JSON serialization of any survey payload is at least 16 characters
long (its constant key skeleton alone is). -/
theorem jsonOfSurvey_length (d : SurveyData) : 16 ≤ (jsonOfSurvey d).length := by
  have h1 : ("\x7b\"participantId\":\"" : String).length = 18 := rfl
  simp only [jsonOfSurvey, String.length_append, h1]
  omega

/-- Whenever `encryptAndStore` of `encryption.ts` returns a result, the
ciphertext in it is the box of the payload under the fresh nonce and fresh
ephemeral key. -/
theorem encryptAndStore_ok_encrypted (c : IPFSConfig)
    (storage : Encryption.TsStorage) (r : FreshDraws) (data : String)
    (pk : PublicKey) (add : Metadata → Nat → Except String String)
    (sealRes : SealResult) (st : Encryption.TsStorage) (ds : List Nat)
    (h : Encryption.encryptAndStore c storage r data pk add
           = (.ok sealRes, st, ds)) :
    sealRes.encrypted = box data r.nonce pk r.ephemeralSecret := by
  simp only [Encryption.encryptAndStore] at h
  split at h
  · simp only [Prod.mk.injEq] at h
    obtain ⟨h1, -⟩ := h
    injection h1 with h1
    rw [← h1]
  · split at h
    · simp only [Prod.mk.injEq] at h
      obtain ⟨h1, -⟩ := h
      injection h1 with h1
      rw [← h1]
    · simp only [Prod.mk.injEq] at h
      exact absurd h.1 (by simp)

/-- C7: The `encryptedDataHash` produced by
`DataSubmissionService.encryptSurveyData` for ledger recording is, for
every valid survey payload, a fixed-length 32-byte value and a function of
the ciphertext — namely its first 32 bytes. -/
theorem encrypted_hash_fixed_length (c : IPFSConfig)
    (storage : Encryption.TsStorage) (r : FreshDraws) (d : SurveyData)
    (pk : PublicKey) (ipfsAdd : Metadata → Nat → Except String String)
    (sub : EncryptedSubmission) (st : Encryption.TsStorage) (ds : List Nat)
    (_hvalid : DataSubmissionService.validateSurveyData d = .ok true)
    (hok : DataSubmissionService.encryptSurveyData c storage r d pk ipfsAdd
             = (.ok sub, st, ds)) :
    sub.encryptedDataHash.length = 32
  ∧ sub.encryptedDataHash
      = (cipherBytes (box (jsonOfSurvey d) r.nonce pk r.ephemeralSecret)).take 32 := by
  have hjson : 16 ≤ (jsonOfSurvey d).length := jsonOfSurvey_length d
  simp only [DataSubmissionService.encryptSurveyData] at hok
  rcases he : Encryption.encryptAndStore c storage r (jsonOfSurvey d) pk ipfsAdd
    with ⟨res, st2, ds2⟩
  rw [he] at hok
  cases res with
  | error m =>
    simp only [Prod.mk.injEq] at hok
    exact absurd hok.1 (by simp)
  | ok sealRes =>
    simp only [Prod.mk.injEq] at hok
    obtain ⟨h1, -⟩ := hok
    injection h1 with h1
    have henc : sealRes.encrypted = box (jsonOfSurvey d) r.nonce pk r.ephemeralSecret :=
      encryptAndStore_ok_encrypted c storage r (jsonOfSurvey d) pk ipfsAdd
        sealRes st2 ds2 he
    constructor
    · rw [← h1]
      simp only [henc, List.length_take, cipherBytes, box, List.length_append,
        List.length_replicate, List.length_map]
      have : (jsonOfSurvey d).data.length = (jsonOfSurvey d).length := rfl
      omega
    · rw [← h1, henc]

/-- Witness for C7 at a concrete valid survey payload under the default
configuration. -/
theorem encrypted_hash_fixed_length_witness :
    (⟨(cipherBytes (box (jsonOfSurvey ⟨"p1", 1, [("q", "a")], 5, none⟩)
          7 (pubOf ⟨1⟩) ⟨5⟩)).take 32, "mock-x",
       ⟨"p1", 1, [("q", "a")], 5, none⟩⟩
      : EncryptedSubmission).encryptedDataHash.length = 32
  ∧ (⟨(cipherBytes (box (jsonOfSurvey ⟨"p1", 1, [("q", "a")], 5, none⟩)
          7 (pubOf ⟨1⟩) ⟨5⟩)).take 32, "mock-x",
       ⟨"p1", 1, [("q", "a")], 5, none⟩⟩
      : EncryptedSubmission).encryptedDataHash
      = (cipherBytes (box (jsonOfSurvey ⟨"p1", 1, [("q", "a")], 5, none⟩)
          7 (pubOf ⟨1⟩) ⟨5⟩)).take 32 :=
  encrypted_hash_fixed_length cfgDefault [] ⟨7, ⟨5⟩, "x"⟩
    ⟨"p1", 1, [("q", "a")], 5, none⟩ (pubOf ⟨1⟩) (fun _ _ => .error "u")
    ⟨(cipherBytes (box (jsonOfSurvey ⟨"p1", 1, [("q", "a")], 5, none⟩)
        7 (pubOf ⟨1⟩) ⟨5⟩)).take 32, "mock-x", ⟨"p1", 1, [("q", "a")], 5, none⟩⟩
    (mapSet [] "mock-x" (jsonOfSurvey ⟨"p1", 1, [("q", "a")], 5, none⟩)) []
    rfl rfl

/-- C8 (counterexample): constructing the storage configuration with the
unrecognized provider value `bogus` does not fail — the constructor cannot
fail and stores the invalid provider verbatim. -/
theorem config_accepts_invalid_provider :
    (IPFSConfigManager.mkConfig envBogus).provider = "bogus"
  ∧ IPFSConfigManager.validProvider "bogus" = false := ⟨rfl, by decide⟩

/-- C8 (amended): the `IPFSConfigManager` constructor performs no provider
validation — any non-empty provider string is accepted and stored as-is
(unset or empty defaults to `custom`); an unrecognized provider surfaces
only at use time, where `uploadMetadata` falls back to the mock upload
path. -/
theorem config_no_validation_amended (env : Env) (p : String)
    (hp : env.IPFS_PROVIDER = some p) (hne : p ≠ "") :
    (IPFSConfigManager.mkConfig env).provider = p
  ∧ (IPFSConfigManager.validProvider p = false →
      IPFSConfigManager.uploadMetadataRoute (IPFSConfigManager.mkConfig env)
        = .mockUpload) := by
  have hprov : (IPFSConfigManager.mkConfig env).provider = p := by
    simp [IPFSConfigManager.mkConfig, jsOrString, hp, hne]
  refine ⟨hprov, fun hv => ?_⟩
  simp only [IPFSConfigManager.validProvider, Bool.or_eq_false_iff] at hv
  simp [IPFSConfigManager.uploadMetadataRoute, hprov, hv.1.1, hv.1.2]

/-- Witness for the amended C8 at the concrete unrecognized provider
`bogus`. -/
theorem config_no_validation_amended_witness :
    (IPFSConfigManager.mkConfig envBogus).provider = "bogus"
  ∧ IPFSConfigManager.uploadMetadataRoute (IPFSConfigManager.mkConfig envBogus)
      = .mockUpload :=
  ⟨(config_no_validation_amended envBogus "bogus" rfl (by decide)).1,
   (config_no_validation_amended envBogus "bogus" rfl (by decide)).2 (by decide)⟩

/-- The retry-exhaustion wrapper determines its inner message: two wrapped
messages with the same label and bound are equal only if the inner
messages are. -/
theorem failMsg_inner_inj (label : String) (r : Nat) {a b : String}
    (h : failMsg label r (some a) = failMsg label r (some b)) : a = b := by
  unfold failMsg at h
  have h1 := stringAppendRightInj label h
  have h2 := stringAppendRightInj " after " h1
  have h3 := stringAppendRightInj (toString r) h2
  have h4 := stringAppendRightInj " attempts: " h3
  simpa using h4

/-- The first character of a wrapped retry-exhaustion message is the first
character of its label. -/
theorem failMsg_head (label : String) (r : Nat) (v : Option String)
    (c : Char) (cs : List Char) (h : label.data = c :: cs) :
    (failMsg label r v).data.head? = some c := by
  unfold failMsg
  exact firstCharAppend label _ c cs h

/-- C4 (counterexample): two different failure classes produce the same
error value — a network that is down on every attempt (its fetch never
succeeds) and a wrong-key decryption failure (the fetch succeeds every
time) both surface the identical string
`Failed to fetch and decrypt data after 3 attempts: Decryption failed`
when the network error text happens to be `Decryption failed`: the code
has no structurally distinct storage-unavailable condition. -/
theorem error_value_conflation_counterexample :
    Encryption.fetchAndDecrypt cfgProd [] "QmX" ⟨2⟩
        (fun _ => .error "Decryption failed")
      = Encryption.fetchAndDecrypt cfgProd [] "QmX" ⟨2⟩
          (fun _ => .ok ⟨"1.0", pubOf ⟨5⟩, 7, box "payload" 7 (pubOf ⟨1⟩) ⟨5⟩⟩)
  ∧ (Encryption.fetchAndDecrypt cfgProd [] "QmX" ⟨2⟩
        (fun _ => .error "Decryption failed")).1
      = .error
          "Failed to fetch and decrypt data after 3 attempts: Decryption failed"
  := ⟨rfl, rfl⟩

/-- C4 (amended): the three failure classes are distinguishable by message
text only — network exhaustion and wrong-key failures both surface through
the same `Failed to fetch and decrypt data after R attempts: …` wrapper,
differing only in the embedded inner message; provided the network error
text differs from `Decryption failed`, the three produced error values
(network exhaustion, wrong key, mock not-found) are pairwise distinct. -/
theorem error_classes_distinct_messages
    (c : IPFSConfig) (storage : Encryption.TsStorage) (cid cid2 : String)
    (sk : SecretKey) (netErr : Nat → String) (md : Metadata)
    (cat2 : Nat → Except String Metadata)
    (hm : isMockPath c = false)
    (hopen : boxOpen md.encryptedData md.nonce md.ephemeralPublicKey sk = none)
    (hneq : netErr (retriesOf c) ≠ "Decryption failed") :
    Encryption.fetchAndDecrypt c storage cid sk (fun i => .error (netErr i))
      = (.error (failMsg "Failed to fetch and decrypt data" (retriesOf c)
                   (some (netErr (retriesOf c)))),
         ((List.range' 1 (retriesOf c)).filter
             (fun i => decide (i < retriesOf c))).map (fun i => 2 ^ i * 1000))
  ∧ Encryption.fetchAndDecrypt c storage cid sk (fun _ => .ok md)
      = (.error (failMsg "Failed to fetch and decrypt data" (retriesOf c)
                   (some "Decryption failed")),
         ((List.range' 1 (retriesOf c)).filter
             (fun i => decide (i < retriesOf c))).map (fun i => 2 ^ i * 1000))
  ∧ Encryption.fetchAndDecrypt cfgDefault [] cid2 sk cat2
      = (.error ("Mock data not found for CID: " ++ cid2), [])
  ∧ failMsg "Failed to fetch and decrypt data" (retriesOf c)
      (some (netErr (retriesOf c)))
      ≠ failMsg "Failed to fetch and decrypt data" (retriesOf c)
        (some "Decryption failed")
  ∧ failMsg "Failed to fetch and decrypt data" (retriesOf c)
      (some "Decryption failed")
      ≠ "Mock data not found for CID: " ++ cid2
  ∧ failMsg "Failed to fetch and decrypt data" (retriesOf c)
      (some (netErr (retriesOf c)))
      ≠ "Mock data not found for CID: " ++ cid2 := by
  have harith : 1 + retriesOf c - 1 = retriesOf c := by omega
  refine ⟨?_, ?_, ?_, ?_, ?_, ?_⟩
  · have hattempt1 : ∀ i, 1 ≤ i → i < 1 + retriesOf c →
        Encryption.fetchAttempt (fun j => .error (netErr j)) sk i
          = .error (netErr i) := fun i h1 h2 => rfl
    simp only [Encryption.fetchAndDecrypt, hm, Bool.false_eq_true, if_false]
    unfold retryLoop
    rw [retryStep_allFail _ (retriesOf c) _ netErr (retriesOf c) 1 none
      (retriesOf_pos c) hattempt1]
    rw [harith]
  · have hattempt : ∀ i, 1 ≤ i → i < 1 + retriesOf c →
        Encryption.fetchAttempt (fun _ => .ok md) sk i
          = .error "Decryption failed" := by
      intro i h1 h2
      simp [Encryption.fetchAttempt, hopen]
    simp only [Encryption.fetchAndDecrypt, hm, Bool.false_eq_true, if_false]
    unfold retryLoop
    rw [retryStep_allFail _ (retriesOf c) _ (fun _ => "Decryption failed")
      (retriesOf c) 1 none (retriesOf_pos c) hattempt]
  · simp [Encryption.fetchAndDecrypt, isMockPath, cfgDefault,
      IPFSConfigManager.mkConfig, envEmpty, jsOrString, jsTruthy, mapGet]
  · exact fun h => hneq (failMsg_inner_inj _ _ h)
  · have hF := failMsg_head "Failed to fetch and decrypt data" (retriesOf c)
      (some "Decryption failed") 'F' ("ailed to fetch and decrypt data".data) rfl
    have hM := firstCharAppend "Mock data not found for CID: " cid2 'M'
      ("ock data not found for CID: ".data) rfl
    exact neOfFirstChar (by rw [hF, hM]; decide)
  · have hF := failMsg_head "Failed to fetch and decrypt data" (retriesOf c)
      (some (netErr (retriesOf c))) 'F' ("ailed to fetch and decrypt data".data) rfl
    have hM := firstCharAppend "Mock data not found for CID: " cid2 'M'
      ("ock data not found for CID: ".data) rfl
    exact neOfFirstChar (by rw [hF, hM]; decide)

/-- Witness for the amended C4 at a concrete production configuration and
a realistic network error text. -/
theorem error_classes_distinct_messages_witness :
    failMsg "Failed to fetch and decrypt data" (retriesOf cfgProd)
      (some "ECONNREFUSED")
      ≠ failMsg "Failed to fetch and decrypt data" (retriesOf cfgProd)
        (some "Decryption failed")
  ∧ failMsg "Failed to fetch and decrypt data" (retriesOf cfgProd)
      (some "Decryption failed")
      ≠ "Mock data not found for CID: " ++ "QmZ" := by
  have h := error_classes_distinct_messages cfgProd [] "QmX2" "QmZ" ⟨2⟩
    (fun _ => "ECONNREFUSED")
    ⟨"1.0", pubOf ⟨5⟩, 7, box "pp" 7 (pubOf ⟨1⟩) ⟨5⟩⟩
    (fun _ => .error "u")
    rfl (by decide) (by decide)
  exact ⟨h.2.2.2.1, h.2.2.2.2.1⟩
